import Mathlib

/-!
Shallow embedding of `src/app.py` (SBB 2025 dashboard).

The dataframe is a `List Row`; the derived table after `with_columns` is a
`List DRow`.  Python float arithmetic on rates is modelled exactly over `ℚ`.
Dates are calendar triples; the weekday used by the neutralization filter is
the ISO weekday (Monday = 1 .. Sunday = 7), exactly what the dataframe
library returns for `dt.weekday()`, computed here by Zeller congruence.
-/

/-- A calendar date (the `BETRIEBSTAG` column, already cast to `Date`). -/
structure Date where
  year : Nat
  month : Nat
  day : Nat
  deriving DecidableEq

/-- A time of day (the `ANKUNFTSZEIT` column); only the hour is ever read. -/
structure Time where
  hour : Nat
  minute : Nat
  deriving DecidableEq

/-- One journey record, with the base columns of the parquet file that the
script reads. -/
structure Row where
  BETRIEBSTAG : Date
  LINIEN_TEXT : String
  FAHRT_BEZEICHNER : String
  HALTESTELLEN_NAME : String
  ANKUNFTSZEIT : Time
  DELAY_MIN : Int
  IS_CANCELLED : Bool
  deriving DecidableEq

/-- The known construction days, `CONSTRUCTION_DAYS` in `src/app.py`
(lines 13-20), in source order. -/
def CONSTRUCTION_DAYS : List Date :=
  [⟨2025, 9, 14⟩, ⟨2025, 11, 23⟩,
   ⟨2025, 9, 13⟩, ⟨2025, 1, 19⟩,
   ⟨2025, 2, 9⟩,  ⟨2025, 1, 26⟩,
   ⟨2025, 2, 2⟩,  ⟨2025, 1, 25⟩,
   ⟨2025, 1, 18⟩, ⟨2025, 2, 8⟩,
   ⟨2025, 2, 1⟩,  ⟨2025, 6, 28⟩]

/-- Zeller congruence index of a Gregorian date: 0 = Saturday, 1 = Sunday,
2 = Monday, ... 6 = Friday. -/
def zellerIndex (d : Date) : Nat :=
  let m := if d.month ≤ 2 then d.month + 12 else d.month
  let y := if d.month ≤ 2 then d.year - 1 else d.year
  let K := y % 100
  let J := y / 100
  (d.day + 13 * (m + 1) / 5 + K + K / 4 + J / 4 + 5 * J) % 7

/-- ISO weekday as returned by `dt.weekday()`: Monday = 1 .. Sunday = 7. -/
def isoWeekday (d : Date) : Nat :=
  (zellerIndex d + 5) % 7 + 1

/-- A row of the derived table produced by `with_columns` (app.py lines
116-121): the base columns plus `IS_FAILURE`, `HOUR` and `MONTH`. -/
structure DRow extends Row where
  IS_FAILURE : Bool
  HOUR : Nat
  MONTH : Nat
  deriving DecidableEq

/-- The `with_columns` derivation step, per row (app.py lines 116-121).
`BETRIEBSTAG` is already a `Date` in the embedding, so its cast is the
identity.  `IS_FAILURE = IS_CANCELLED | (DELAY_MIN >= 10)`, `HOUR` is the
hour of `ANKUNFTSZEIT`, `MONTH` the month of `BETRIEBSTAG`. -/
def derive (r : Row) : DRow :=
  { toRow := r
    IS_FAILURE := r.IS_CANCELLED || decide (r.DELAY_MIN ≥ 10)
    HOUR := r.ANKUNFTSZEIT.hour
    MONTH := r.BETRIEBSTAG.month }

/-- The neutralization row predicate of app.py lines 125-128: keep a row
when its date is not in `CONSTRUCTION_DAYS` and its weekday is `< 6`. -/
def neutralKeep (d : DRow) : Bool :=
  !(decide (d.BETRIEBSTAG ∈ CONSTRUCTION_DAYS)) && decide (isoWeekday d.BETRIEBSTAG < 6)

/-- The processing pipeline of app.py lines 105-128 on an in-memory table:
filter to the selected lines (line 105), derive the computed columns
(lines 116-121), and, when `neutralize` is set, apply the neutralization
filter (lines 124-128). -/
def processed (df : List Row) (selected_lines : List String) (neutralize : Bool) :
    List DRow :=
  let collected := df.filter (fun r => decide (r.LINIEN_TEXT ∈ selected_lines))
  let derived := collected.map derive
  if neutralize then derived.filter neutralKeep else derived

/-- `total_trains = df.height` (app.py line 138). -/
def total_trains (df : List DRow) : Nat :=
  df.length

/-- `failures = df.filter(pl.col("IS_FAILURE")).height` (app.py line 139). -/
def failures (df : List DRow) : Nat :=
  (df.filter (fun r => r.IS_FAILURE)).length

/-- `fail_rate = (failures / total_trains * 100) if total_trains > 0 else 0`
(app.py line 140), with float division modelled exactly over `ℚ`. -/
def fail_rate (df : List DRow) : ℚ :=
  if 0 < total_trains df then (failures df : ℚ) / (total_trains df : ℚ) * 100 else 0

/-- `est_hours_lost = (df["DELAY_MIN"].sum() / 60) * 600 * 0.4`
(app.py line 141). -/
def est_hours_lost (df : List DRow) : ℚ :=
  (((df.map (fun r => r.DELAY_MIN)).sum : ℚ) / 60) * 600 * (0.4 : ℚ)

/-- One row of the daily aggregation (app.py lines 153-158). -/
structure DailyRow where
  BETRIEBSTAG : Date
  TOTAL : Nat
  FAILURES : Nat
  RATE : ℚ
  deriving DecidableEq

/-- One row of the hourly aggregation (app.py lines 167-172). -/
structure HourRow where
  HOUR : Nat
  TOTAL : Nat
  FAILURES : Nat
  RATE : ℚ
  deriving DecidableEq

/-- Numeric key used to order dates ascending, as `sort("BETRIEBSTAG")`
does. -/
def dateKey (d : Date) : Nat :=
  d.year * 10000 + d.month * 100 + d.day

/-- The aggregation row of the daily group with key `k`: row count, failure
count (sum of the boolean `IS_FAILURE` column) and the unguarded rate
`FAILURES / TOTAL * 100` (app.py lines 154-156). -/
def dailyGroup (df : List DRow) (k : Date) : DailyRow :=
  let g := df.filter (fun r => decide (r.BETRIEBSTAG = k))
  { BETRIEBSTAG := k
    TOTAL := g.length
    FAILURES := g.countP (fun r => r.IS_FAILURE)
    RATE := ((g.countP (fun r => r.IS_FAILURE) : ℚ) / (g.length : ℚ)) * 100 }

/-- The daily series (app.py lines 153-158): group by `BETRIEBSTAG`,
aggregate, sort ascending by date. -/
def daily (df : List DRow) : List DailyRow :=
  (((df.map (fun r => r.BETRIEBSTAG)).dedup).map (dailyGroup df)).mergeSort
    (fun a b => decide (dateKey a.BETRIEBSTAG ≤ dateKey b.BETRIEBSTAG))

/-- The aggregation row of the hourly group with key `k` (app.py
lines 168-170). -/
def hourGroup (df : List DRow) (k : Nat) : HourRow :=
  let g := df.filter (fun r => decide (r.HOUR = k))
  { HOUR := k
    TOTAL := g.length
    FAILURES := g.countP (fun r => r.IS_FAILURE)
    RATE := ((g.countP (fun r => r.IS_FAILURE) : ℚ) / (g.length : ℚ)) * 100 }

/-- The hourly series `heatmap_data` (app.py lines 167-172): group by
`HOUR`, aggregate, sort ascending by hour. -/
def heatmap_data (df : List DRow) : List HourRow :=
  (((df.map (fun r => r.HOUR)).dedup).map (hourGroup df)).mergeSort
    (fun a b => decide (a.HOUR ≤ b.HOUR))

/-- One row of the worst-offenders table: the five projected columns of
app.py line 182. -/
structure WorstRow where
  BETRIEBSTAG : Date
  LINIEN_TEXT : String
  FAHRT_BEZEICHNER : String
  HALTESTELLEN_NAME : String
  DELAY_MIN : Int
  deriving DecidableEq

/-- The column projection of app.py line 182. -/
def selectWorst (r : DRow) : WorstRow :=
  { BETRIEBSTAG := r.BETRIEBSTAG
    LINIEN_TEXT := r.LINIEN_TEXT
    FAHRT_BEZEICHNER := r.FAHRT_BEZEICHNER
    HALTESTELLEN_NAME := r.HALTESTELLEN_NAME
    DELAY_MIN := r.DELAY_MIN }

/-- The worst-offenders table (app.py lines 180-185): rows with
`DELAY_MIN > 30`, projected, sorted descending by delay, first 10. -/
def worst_trains (df : List DRow) : List WorstRow :=
  (((df.filter (fun r => decide (r.DELAY_MIN > 30))).map selectWorst).mergeSort
    (fun a b => decide (b.DELAY_MIN ≤ a.DELAY_MIN))).take 10

/-- The way a session can stop before rendering (app.py lines 90-92). -/
inductive Halt where
  | emptySelectionWarning
  deriving DecidableEq

/-- Everything the dashboard computes from the processed table
(app.py lines 138-185). -/
structure Output where
  total_trains : Nat
  failures : Nat
  fail_rate : ℚ
  est_hours_lost : ℚ
  daily : List DailyRow
  heatmap_data : List HourRow
  worst_trains : List WorstRow
  deriving DecidableEq

/-- One dashboard session after the lines are known: when no line is
selected the script warns and stops (app.py lines 90-92) before any
processing; otherwise it processes the table and computes every metric and
view. -/
def runSession (df : List Row) (selected_lines : List String) (neutralize : Bool) :
    Except Halt Output :=
  if selected_lines.isEmpty then
    Except.error Halt.emptySelectionWarning
  else
    let t := processed df selected_lines neutralize
    Except.ok
      { total_trains := total_trains t
        failures := failures t
        fail_rate := fail_rate t
        est_hours_lost := est_hours_lost t
        daily := daily t
        heatmap_data := heatmap_data t
        worst_trains := worst_trains t }

/-- C1: the derived failure flag is true iff the row is cancelled or its
delay is at least 10 minutes; at the boundary, a non-cancelled row with
delay exactly 10 is a failure and one with delay 9 is not. -/
theorem sbb_C1 :
    (∀ r : Row, (derive r).IS_FAILURE = true ↔ (r.IS_CANCELLED = true ∨ 10 ≤ r.DELAY_MIN))
    ∧ (∀ r : Row, r.IS_CANCELLED = false → r.DELAY_MIN = 10 → (derive r).IS_FAILURE = true)
    ∧ (∀ r : Row, r.IS_CANCELLED = false → r.DELAY_MIN = 9 → (derive r).IS_FAILURE = false) := by
  refine ⟨?_, ?_, ?_⟩
  · intro r
    simp [derive]
  · intro r hc hd
    simp [derive, hc, hd]
  · intro r hc hd
    simp [derive, hc, hd]

/-- Sample row used to exercise the C1 boundary at delay 10. -/
def c1row10 : Row :=
  { BETRIEBSTAG := ⟨2025, 3, 3⟩, LINIEN_TEXT := "IC 1", FAHRT_BEZEICHNER := "85:11:701"
    HALTESTELLEN_NAME := "Bern", ANKUNFTSZEIT := ⟨12, 30⟩, DELAY_MIN := 10
    IS_CANCELLED := false }

/-- Sample row used to exercise the C1 boundary at delay 9. -/
def c1row9 : Row :=
  { BETRIEBSTAG := ⟨2025, 3, 3⟩, LINIEN_TEXT := "IC 1", FAHRT_BEZEICHNER := "85:11:702"
    HALTESTELLEN_NAME := "Bern", ANKUNFTSZEIT := ⟨12, 35⟩, DELAY_MIN := 9
    IS_CANCELLED := false }

/-- C1 witness: the boundary parts of `sbb_C1` applied at delays 10 and 9. -/
theorem sbb_C1_witness :
    (derive c1row10).IS_FAILURE = true ∧ (derive c1row9).IS_FAILURE = false :=
  ⟨sbb_C1.2.1 c1row10 rfl rfl, sbb_C1.2.2 c1row9 rfl rfl⟩

/-- The two example rows of the spec for the failure rate: same date and
line, delays 15 and 2, neither cancelled. -/
def c2rows : List Row :=
  [{ BETRIEBSTAG := ⟨2025, 1, 2⟩, LINIEN_TEXT := "IC 1", FAHRT_BEZEICHNER := "85:11:711"
     HALTESTELLEN_NAME := "Bern", ANKUNFTSZEIT := ⟨8, 0⟩, DELAY_MIN := 15
     IS_CANCELLED := false },
   { BETRIEBSTAG := ⟨2025, 1, 2⟩, LINIEN_TEXT := "IC 1", FAHRT_BEZEICHNER := "85:11:712"
     HALTESTELLEN_NAME := "Bern", ANKUNFTSZEIT := ⟨9, 0⟩, DELAY_MIN := 2
     IS_CANCELLED := false }]

/-- C2: the failure rate is failures over total times 100, with total the
row count and failures the count of failure rows, and 0 when the total is 0
(the guard takes the division-free branch); on the two-row example the
total is 2, the failures 1, the rate 50. -/
theorem sbb_C2 :
    (∀ t : List DRow,
      fail_rate t =
        if total_trains t = 0 then 0 else (failures t : ℚ) / (total_trains t : ℚ) * 100)
    ∧ total_trains (processed c2rows ["IC 1"] false) = 2
    ∧ failures (processed c2rows ["IC 1"] false) = 1
    ∧ fail_rate (processed c2rows ["IC 1"] false) = 50 := by
  have h1 : failures (processed c2rows ["IC 1"] false) = 1 := by decide
  have h2 : total_trains (processed c2rows ["IC 1"] false) = 2 := by decide
  refine ⟨?_, h2, h1, by rw [fail_rate, h1, h2]; norm_num⟩
  intro t
  by_cases h : total_trains t = 0
  · simp [fail_rate, h]
  · simp [fail_rate, h, Nat.pos_of_ne_zero h]

/-- The weekday index of every date lies in 1..7. -/
theorem isoWeekday_le_seven (d : Date) : isoWeekday d ≤ 7 := by
  have h : (zellerIndex d + 5) % 7 < 7 := Nat.mod_lt _ (by omega)
  unfold isoWeekday
  omega

/-- C3: with neutralization on, the processed table keeps exactly the rows
of the non-neutralized processed table whose date is off the blacklist and
whose weekday is neither Saturday (6) nor Sunday (7); in particular with
lines ["IC 1"] and neutralize on, no surviving row is dated 2025-01-18. -/
theorem sbb_C3 :
    (∀ (df : List Row) (sel : List String) (r : DRow),
      r ∈ processed df sel true ↔
        (r ∈ processed df sel false ∧ r.BETRIEBSTAG ∉ CONSTRUCTION_DAYS ∧
          ¬(isoWeekday r.BETRIEBSTAG = 6 ∨ isoWeekday r.BETRIEBSTAG = 7)))
    ∧ (∀ (df : List Row) (r : DRow),
        r ∈ processed df ["IC 1"] true → r.BETRIEBSTAG ≠ ⟨2025, 1, 18⟩) := by
  have hchar : ∀ (df : List Row) (sel : List String) (r : DRow),
      r ∈ processed df sel true ↔
        (r ∈ processed df sel false ∧ r.BETRIEBSTAG ∉ CONSTRUCTION_DAYS ∧
          ¬(isoWeekday r.BETRIEBSTAG = 6 ∨ isoWeekday r.BETRIEBSTAG = 7)) := by
    intro df sel r
    have hle := isoWeekday_le_seven r.BETRIEBSTAG
    simp only [processed, if_true, if_false, List.mem_filter, neutralKeep]
    constructor
    · rintro ⟨hm, hk⟩
      simp only [Bool.and_eq_true, Bool.not_eq_true', decide_eq_false_iff_not,
        decide_eq_true_eq] at hk
      exact ⟨hm, hk.1, by omega⟩
    · rintro ⟨hm, hb, hw⟩
      refine ⟨hm, ?_⟩
      simp only [Bool.and_eq_true, Bool.not_eq_true', decide_eq_false_iff_not,
        decide_eq_true_eq]
      exact ⟨hb, by omega⟩
  refine ⟨hchar, ?_⟩
  intro df r hr
  have h := ((hchar df ["IC 1"] r).mp hr).2.1
  intro hd
  exact h (by rw [hd]; decide)

/-- Sample row on a Monday (2025-01-06), line "IC 1", used to exercise the
neutralized pipeline. -/
def c3row : Row :=
  { BETRIEBSTAG := ⟨2025, 1, 6⟩, LINIEN_TEXT := "IC 1", FAHRT_BEZEICHNER := "85:11:721"
    HALTESTELLEN_NAME := "Olten", ANKUNFTSZEIT := ⟨7, 15⟩, DELAY_MIN := 3
    IS_CANCELLED := false }

/-- C3 witness: a Monday row survives the neutralized pipeline, and
`sbb_C3` applied to it yields that its date is not the blacklisted
2025-01-18. -/
theorem sbb_C3_witness :
    derive c3row ∈ processed [c3row] ["IC 1"] true ∧
      (derive c3row).BETRIEBSTAG ≠ ⟨2025, 1, 18⟩ :=
  ⟨by decide, sbb_C3.2 [c3row] (derive c3row) (by decide)⟩

/-- C9: with an empty line selection the session stops with the warning
before any metric or view is computed. -/
theorem sbb_C9 :
    ∀ (df : List Row) (neutralize : Bool),
      runSession df [] neutralize = Except.error Halt.emptySelectionWarning := by
  intro df neutralize
  rfl

/-- The neutralization condition read off the base columns of a row: date
off the blacklist and weekday `< 6`. -/
def baseNeutralKeep (r : Row) : Bool :=
  !(decide (r.BETRIEBSTAG ∈ CONSTRUCTION_DAYS)) && decide (isoWeekday r.BETRIEBSTAG < 6)

/-- The combined row filter of one session: selected line, and the
neutralization condition when `neutralize` is set. -/
def keepRow (sel : List String) (neutralize : Bool) (r : Row) : Bool :=
  decide (r.LINIEN_TEXT ∈ sel) && (!neutralize || baseNeutralKeep r)

theorem neutralKeep_derive (r : Row) : neutralKeep (derive r) = baseNeutralKeep r :=
  rfl

theorem derive_toRow (r : Row) : (derive r).toRow = r :=
  rfl

theorem filter_map_derive (p : Row → Bool) (df : List Row) :
    (df.filter p).map derive = (df.map derive).filter (fun d => p d.toRow) := by
  induction df with
  | nil => rfl
  | cons r rest ih =>
      by_cases h : p r
      · simp [List.filter_cons, derive_toRow, h, ih]
      · simp [List.filter_cons, derive_toRow, h, ih]

theorem processed_eq_filter_derive (df : List Row) (sel : List String) (n : Bool) :
    processed df sel n = (df.filter (keepRow sel n)).map derive := by
  cases n with
  | false =>
      have hk : keepRow sel false = fun r => decide (r.LINIEN_TEXT ∈ sel) := by
        funext r
        simp [keepRow]
      simp [processed, hk]
  | true =>
      simp only [processed, if_true]
      induction df with
      | nil => rfl
      | cons r rest ih =>
          by_cases hl : decide (r.LINIEN_TEXT ∈ sel)
          · by_cases hn : baseNeutralKeep r
            · simp [List.filter_cons, hl, hn, keepRow, neutralKeep_derive, ih]
            · simp [List.filter_cons, hl, hn, keepRow, neutralKeep_derive, ih]
          · simp [List.filter_cons, hl, keepRow, ih]

/-- C6: deriving the computed columns commutes with the line and
neutralization filter: the processed table is the filtered base table
mapped through the derivation, and that equals deriving first and then
filtering on the same per-row condition read through the base columns. -/
theorem sbb_C6 :
    ∀ (df : List Row) (sel : List String) (neutralize : Bool),
      processed df sel neutralize = (df.filter (keepRow sel neutralize)).map derive
      ∧ (df.filter (keepRow sel neutralize)).map derive
          = (df.map derive).filter (fun d => keepRow sel neutralize d.toRow) :=
  fun df sel neutralize =>
    ⟨processed_eq_filter_derive df sel neutralize, filter_map_derive _ df⟩

/-- C7: for the same line selection, every row of the neutralized table is
a row of the non-neutralized table. -/
theorem sbb_C7 :
    ∀ (df : List Row) (sel : List String) (r : DRow),
      r ∈ processed df sel true → r ∈ processed df sel false := by
  intro df sel r h
  simp only [processed, if_true] at h
  simp only [processed, if_false]
  exact List.mem_of_mem_filter h

/-- Sample weekday row (Tuesday 2025-01-07) used to exercise C7. -/
def c7row : Row :=
  { BETRIEBSTAG := ⟨2025, 1, 7⟩, LINIEN_TEXT := "IC 5", FAHRT_BEZEICHNER := "85:11:731"
    HALTESTELLEN_NAME := "Biel", ANKUNFTSZEIT := ⟨18, 45⟩, DELAY_MIN := 12
    IS_CANCELLED := false }

/-- C7 witness: a Tuesday row is in the neutralized table, and `sbb_C7`
puts it in the non-neutralized one. -/
theorem sbb_C7_witness :
    derive c7row ∈ processed [c7row] ["IC 5"] true ∧
      derive c7row ∈ processed [c7row] ["IC 5"] false :=
  ⟨by decide, sbb_C7 [c7row] ["IC 5"] (derive c7row) (by decide)⟩

/-- Sample punctual row (delay 0, not cancelled) breaking the claim that a
non-empty table has non-zero failure rate. -/
def c8row : Row :=
  { BETRIEBSTAG := ⟨2025, 3, 4⟩, LINIEN_TEXT := "IC 1", FAHRT_BEZEICHNER := "85:11:741"
    HALTESTELLEN_NAME := "Zuerich HB", ANKUNFTSZEIT := ⟨10, 0⟩, DELAY_MIN := 0
    IS_CANCELLED := false }

/-- C8 counterexample: a table with one punctual row has total 1 (not 0)
yet failure rate 0, so the rate being 0 does not force the table to be
empty. -/
theorem sbb_C8_counterexample :
    total_trains (processed [c8row] ["IC 1"] false) ≠ 0 ∧
      fail_rate (processed [c8row] ["IC 1"] false) = 0 := by
  have h1 : failures (processed [c8row] ["IC 1"] false) = 0 := by decide
  have h2 : total_trains (processed [c8row] ["IC 1"] false) = 1 := by decide
  refine ⟨by decide, ?_⟩
  rw [fail_rate, h1, h2]
  norm_num

/-- C8 amended: the failure rate is 0 exactly when the failure count is 0;
an empty table has rate 0, but a non-empty table with no failure rows has
rate 0 as well. -/
theorem sbb_C8 :
    ∀ t : List DRow, fail_rate t = 0 ↔ failures t = 0 := by
  intro t
  unfold fail_rate
  by_cases h : 0 < total_trains t
  · rw [if_pos h, mul_eq_zero, div_eq_zero_iff]
    constructor
    · rintro (hf | h100)
      · rcases hf with hf | ht
        · exact_mod_cast hf
        · exact absurd ht (Nat.cast_ne_zero.mpr (Nat.pos_iff_ne_zero.mp h))
      · norm_num at h100
    · intro hf
      left
      left
      exact_mod_cast hf
  · rw [if_neg h]
    have ht : t = [] := by
      have hl : t.length = 0 := by
        simpa [total_trains] using h
      exact List.length_eq_zero.mp hl
    subst ht
    simp [failures]

/-- C4: the worst-offenders list has at most 10 rows, every row has delay
above 30, delays are in descending order, and when fewer than 10 rows
qualify the list is exactly (a permutation of) all qualifying rows. -/
theorem sbb_C4 :
    ∀ df : List DRow,
      (worst_trains df).length ≤ 10
      ∧ (∀ w ∈ worst_trains df, 30 < w.DELAY_MIN)
      ∧ List.Pairwise (fun a b => b.DELAY_MIN ≤ a.DELAY_MIN) (worst_trains df)
      ∧ ((df.filter (fun r => decide (r.DELAY_MIN > 30))).length < 10 →
          (worst_trains df).Perm
            ((df.filter (fun r => decide (r.DELAY_MIN > 30))).map selectWorst)) := by
  intro df
  have hperm :
      (((df.filter (fun r => decide (r.DELAY_MIN > 30))).map selectWorst).mergeSort
        (fun a b => decide (b.DELAY_MIN ≤ a.DELAY_MIN))).Perm
        ((df.filter (fun r => decide (r.DELAY_MIN > 30))).map selectWorst) :=
    List.mergeSort_perm _ _
  refine ⟨?_, ?_, ?_, ?_⟩
  · rw [worst_trains, List.length_take]
    exact min_le_left _ _
  · intro w hw
    have hw2 := List.mem_of_mem_take hw
    have hw3 := hperm.mem_iff.mp hw2
    obtain ⟨r, hr, rfl⟩ := List.mem_map.mp hw3
    have hr2 := (List.mem_filter.mp hr).2
    simpa [selectWorst] using of_decide_eq_true hr2
  · have hsorted :=
      @List.sorted_mergeSort WorstRow
        (fun a b => decide (b.DELAY_MIN ≤ a.DELAY_MIN))
        (fun a b c hab hbc => by
          simp only [decide_eq_true_eq] at *
          exact le_trans hbc hab)
        (fun a b => by
          rcases le_total a.DELAY_MIN b.DELAY_MIN with h | h <;> simp [h])
        ((df.filter (fun r => decide (r.DELAY_MIN > 30))).map selectWorst)
    have hprop : List.Pairwise (fun a b : WorstRow => b.DELAY_MIN ≤ a.DELAY_MIN)
        (((df.filter (fun r => decide (r.DELAY_MIN > 30))).map selectWorst).mergeSort
          (fun a b => decide (b.DELAY_MIN ≤ a.DELAY_MIN))) :=
      hsorted.imp (fun h => of_decide_eq_true h)
    exact hprop.sublist (List.take_sublist _ _)
  · intro hlen
    have hlen2 :
        (((df.filter (fun r => decide (r.DELAY_MIN > 30))).map selectWorst).mergeSort
          (fun a b => decide (b.DELAY_MIN ≤ a.DELAY_MIN))).length ≤ 10 := by
      rw [hperm.length_eq, List.length_map]
      omega
    rw [worst_trains, List.take_of_length_le hlen2]
    exact hperm

/-- Sample badly delayed row (delay 45) used to exercise the
worst-offenders list. -/
def c4row : Row :=
  { BETRIEBSTAG := ⟨2025, 4, 10⟩, LINIEN_TEXT := "IC 1", FAHRT_BEZEICHNER := "85:11:751"
    HALTESTELLEN_NAME := "Lausanne", ANKUNFTSZEIT := ⟨17, 20⟩, DELAY_MIN := 45
    IS_CANCELLED := false }

theorem worst_trains_c4row :
    worst_trains [derive c4row] = [selectWorst (derive c4row)] := by
  rw [worst_trains]
  have h0 : [derive c4row].filter (fun r => decide (r.DELAY_MIN > 30)) = [derive c4row] := by
    decide
  rw [h0]
  rw [show [derive c4row].map selectWorst = [selectWorst (derive c4row)] from rfl]
  rw [List.mergeSort_singleton]
  rfl

/-- C4 witness: `sbb_C4` applied to a one-row table whose single row has
delay 45: the row is in the list with delay above 30, and with one
qualifying row the list is a permutation of all qualifying rows. -/
theorem sbb_C4_witness :
    (selectWorst (derive c4row) ∈ worst_trains [derive c4row]
      ∧ 30 < (selectWorst (derive c4row)).DELAY_MIN)
    ∧ (([derive c4row].filter (fun r => decide (r.DELAY_MIN > 30))).length < 10
      ∧ (worst_trains [derive c4row]).Perm
          (([derive c4row].filter (fun r => decide (r.DELAY_MIN > 30))).map selectWorst)) :=
  ⟨⟨by rw [worst_trains_c4row]; exact List.mem_singleton.mpr rfl,
    (sbb_C4 [derive c4row]).2.1 (selectWorst (derive c4row))
      (by rw [worst_trains_c4row]; exact List.mem_singleton.mpr rfl)⟩,
   ⟨by decide, (sbb_C4 [derive c4row]).2.2.2 (by decide)⟩⟩

theorem sum_group_lengths {α κ : Type} [DecidableEq κ] (key : α → κ) (l : List α) :
    (((l.map key).dedup).map
      (fun k => (l.filter (fun a => decide (key a = k))).length)).sum = l.length := by
  have h1 : ∀ k : κ,
      (l.filter (fun a => decide (key a = k))).length = List.count k (l.map key) := by
    intro k
    rw [← List.countP_eq_length_filter, List.count_eq_countP, List.countP_map]
    congr 1
  simp only [h1]
  rw [List.sum_map_count_dedup_eq_length (l.map key)]
  exact List.length_map l key

/-- C5: the per-group row counts of the daily series and of the hourly
series each sum to the filtered row count. -/
theorem sbb_C5 :
    ∀ df : List DRow,
      ((daily df).map (fun g => g.TOTAL)).sum = df.length
      ∧ ((heatmap_data df).map (fun g => g.TOTAL)).sum = df.length := by
  intro df
  constructor
  · have hperm :=
      (List.mergeSort_perm (((df.map (fun r => r.BETRIEBSTAG)).dedup).map (dailyGroup df))
        (fun a b => decide (dateKey a.BETRIEBSTAG ≤ dateKey b.BETRIEBSTAG))).map
        (fun g : DailyRow => g.TOTAL)
    rw [daily, hperm.sum_eq, List.map_map]
    exact sum_group_lengths (fun r => r.BETRIEBSTAG) df
  · have hperm :=
      (List.mergeSort_perm (((df.map (fun r => r.HOUR)).dedup).map (hourGroup df))
        (fun a b => decide (a.HOUR ≤ b.HOUR))).map
        (fun g : HourRow => g.TOTAL)
    rw [heatmap_data, hperm.sum_eq, List.map_map]
    exact sum_group_lengths (fun r => r.HOUR) df

/-- C10: every group of the daily series and every group of the hourly
series counts at least one row, so the unguarded per-group rate never
divides by zero. -/
theorem sbb_C10 :
    ∀ df : List DRow,
      (∀ g ∈ daily df, 1 ≤ g.TOTAL) ∧ (∀ g ∈ heatmap_data df, 1 ≤ g.TOTAL) := by
  intro df
  constructor
  · intro g hg
    rw [daily] at hg
    have hg2 := (List.mergeSort_perm _ _).mem_iff.mp hg
    obtain ⟨k, hk, rfl⟩ := List.mem_map.mp hg2
    obtain ⟨r, hr, rfl⟩ := List.mem_map.mp (List.mem_dedup.mp hk)
    have hrf : r ∈ df.filter (fun x => decide (x.BETRIEBSTAG = r.BETRIEBSTAG)) :=
      List.mem_filter.mpr ⟨hr, by simp⟩
    have hpos : 0 < (df.filter (fun x => decide (x.BETRIEBSTAG = r.BETRIEBSTAG))).length :=
      List.length_pos.mpr (List.ne_nil_of_mem hrf)
    exact hpos
  · intro g hg
    rw [heatmap_data] at hg
    have hg2 := (List.mergeSort_perm _ _).mem_iff.mp hg
    obtain ⟨k, hk, rfl⟩ := List.mem_map.mp hg2
    obtain ⟨r, hr, rfl⟩ := List.mem_map.mp (List.mem_dedup.mp hk)
    have hrf : r ∈ df.filter (fun x => decide (x.HOUR = r.HOUR)) :=
      List.mem_filter.mpr ⟨hr, by simp⟩
    have hpos : 0 < (df.filter (fun x => decide (x.HOUR = r.HOUR))).length :=
      List.length_pos.mpr (List.ne_nil_of_mem hrf)
    exact hpos

/-- Sample row (2025-05-05, arriving in hour 9) used to exercise the two
grouped series. -/
def c10row : Row :=
  { BETRIEBSTAG := ⟨2025, 5, 5⟩, LINIEN_TEXT := "IC 5", FAHRT_BEZEICHNER := "85:11:761"
    HALTESTELLEN_NAME := "Genf", ANKUNFTSZEIT := ⟨9, 10⟩, DELAY_MIN := 4
    IS_CANCELLED := false }

theorem daily_c10row :
    daily [derive c10row] = [dailyGroup [derive c10row] ⟨2025, 5, 5⟩] := by
  rw [daily]
  have h0 : ([derive c10row].map (fun r => r.BETRIEBSTAG)).dedup = [(⟨2025, 5, 5⟩ : Date)] := by
    decide
  rw [h0]
  rw [show List.map (dailyGroup [derive c10row]) [(⟨2025, 5, 5⟩ : Date)]
      = [dailyGroup [derive c10row] ⟨2025, 5, 5⟩] from rfl]
  rw [List.mergeSort_singleton]

theorem heatmap_c10row :
    heatmap_data [derive c10row] = [hourGroup [derive c10row] 9] := by
  rw [heatmap_data]
  have h0 : ([derive c10row].map (fun r => r.HOUR)).dedup = [9] := by
    decide
  rw [h0]
  rw [show List.map (hourGroup [derive c10row]) [9] = [hourGroup [derive c10row] 9] from rfl]
  rw [List.mergeSort_singleton]

/-- C10 witness: `sbb_C10` applied to a one-row table: its daily group and
its hourly group are in the series and both count at least one row. -/
theorem sbb_C10_witness :
    (dailyGroup [derive c10row] ⟨2025, 5, 5⟩ ∈ daily [derive c10row]
      ∧ 1 ≤ (dailyGroup [derive c10row] ⟨2025, 5, 5⟩).TOTAL)
    ∧ (hourGroup [derive c10row] 9 ∈ heatmap_data [derive c10row]
      ∧ 1 ≤ (hourGroup [derive c10row] 9).TOTAL) :=
  ⟨⟨by rw [daily_c10row]; exact List.mem_singleton.mpr rfl,
    (sbb_C10 [derive c10row]).1 _ (by rw [daily_c10row]; exact List.mem_singleton.mpr rfl)⟩,
   ⟨by rw [heatmap_c10row]; exact List.mem_singleton.mpr rfl,
    (sbb_C10 [derive c10row]).2 _ (by rw [heatmap_c10row]; exact List.mem_singleton.mpr rfl)⟩⟩
